import Mathlib

/-!
# Verification of the email-scanning decision engine

A shallow embedding, in Lean 4, of the core of
`agents/email_scanner/src/scanner.py`: the `EmailClassifier`,
`PatternMatcher` and `EmailScanner` classes, together with proofs of the
behavioural properties claimed for them.

Modelling conventions:
* Python floats are modelled as rationals (`ℚ`); every constant appearing
  in the source is an exact decimal, so the arithmetic is the same.
* Python's compiled regular expressions (always compiled with `re.I` in the
  source) are modelled by an explicit regex AST `RE` and an executable
  backtracking matcher; each fixed pattern string of the source is
  transcribed into this AST next to its original text.
* File-system and network effects (`gmail.save_attachment`, `Path.exists`,
  the first-row reads of `_extract_columns`) are supplied by a `ScanEnv`
  record of oracle functions, so every operation is a pure function of the
  message, the configuration and the environment.
-/

/-! ## Small string utilities mirroring Python `str` operations -/

/-- Python's `needle in hay` substring test on lists of characters. -/
def listContainsSub (needle : List Char) : List Char → Bool
  | [] => needle.isEmpty
  | c :: rest => needle.isPrefixOf (c :: rest) || listContainsSub needle rest

/-- Python's `needle in hay` substring test on strings. -/
def strContains (hay needle : String) : Bool :=
  listContainsSub needle.toList hay.toList

/-- Python's `s.lstrip('.')`: drop leading dots. -/
def pyLstripDots (s : String) : String :=
  ⟨s.toList.dropWhile (· == '.')⟩

/-- The substring of `s` from character index `i` (inclusive) to `j`
(exclusive), as in a Python slice `s[i:j]`. -/
def strSlice (s : String) (i j : Nat) : String :=
  ⟨(s.toList.drop i).take (j - i)⟩

/-- Index (from the left) of the last `.` in a list of characters. -/
def lastDotIdx (cs : List Char) : Option Nat :=
  match cs.reverse.findIdx? (· == '.') with
  | some k => some (cs.length - 1 - k)
  | none => none

/-- Python `pathlib.Path(filename).suffix`: the extension of the final
path component, including the leading dot, and `""` when the name has no
proper extension (`PurePath.suffix` returns `name[i:]` for the last dot
index `i` only when `0 < i < len(name) - 1`). -/
def pySuffix (filename : String) : String :=
  let name := (filename.splitOn "/").getLastD filename
  let cs := name.toList
  match lastDotIdx cs with
  | some i => if 0 < i ∧ i < cs.length - 1 then ⟨cs.drop i⟩ else ""
  | none => ""

/-- Python truthiness of an optional string (`None` and `""` are falsy). -/
def pyTruthyStr : Option String → Bool
  | some s => !(s == "")
  | none => false

/-- Python `a or default` for an optional string (`None`/`""` fall through). -/
def pyOrStr (o : Option String) (d : String) : String :=
  match o with
  | some s => if s == "" then d else s
  | none => d

/-! ## A regular-expression engine

The source compiles every pattern with `re.I` and only ever asks
`regex.search(text)` (existence, and for link extraction the matched
span).  The AST below covers exactly the constructs appearing in the
fixed pattern tables of `scanner.py`: literals, character classes,
alternation, concatenation, greedy `*`/`+`/`?`, the word-boundary
assertion `\b` and the start anchor `^`. -/

inductive RE where
  | eps : RE
  | pred : (Char → Bool) → RE
  | seq : RE → RE → RE
  | alt : RE → RE → RE
  | star : RE → RE
  | wordB : RE
  | bos : RE

/-- Python `\w` (ASCII part, which is all the scanned texts use). -/
def isWordChar (c : Char) : Bool := c.isAlphanum || c == '_'

/-- Python `\s` (ASCII part): space, tab, newline, CR, VT, FF. -/
def pyIsSpace (c : Char) : Bool :=
  c == ' ' || c == '\t' || c == '\n' || c == '\r' ||
  c == Char.ofNat 11 || c == Char.ofNat 12

/-- Is there a `\b` word boundary between the previous character and the
next one (either may be absent at the ends of the text)? -/
def atBoundary (prev next : Option Char) : Bool :=
  (match prev with | none => false | some c => isWordChar c) !=
  (match next with | none => false | some c => isWordChar c)

/-- All ways a regex can match a prefix of `s`, each given as the pair of
the character preceding the rest and the remaining suffix.  The results
are ordered by the backtracking preference of Python's engine (greedy
repetition, left alternative first), so the head of the list is the match
Python would pick at this position.  `fuel` bounds the unrolling of
`star`; an iteration of `star` that consumes no input is pruned, which
does not change the set of matches. -/
def matchEnds : Nat → RE → Option Char → List Char →
    List (Option Char × List Char)
  | 0, _, _, _ => []
  | _ + 1, .eps, prev, s => [(prev, s)]
  | _ + 1, .pred p, _, s =>
    match s with
    | [] => []
    | c :: rest => if p c then [(some c, rest)] else []
  | fuel + 1, .seq a b, prev, s =>
    (matchEnds fuel a prev s).flatMap fun pr => matchEnds fuel b pr.1 pr.2
  | fuel + 1, .alt a b, prev, s =>
    matchEnds fuel a prev s ++ matchEnds fuel b prev s
  | _ + 1, .wordB, prev, s => if atBoundary prev s.head? then [(prev, s)] else []
  | _ + 1, .bos, prev, s => if prev.isNone then [(prev, s)] else []
  | fuel + 1, .star a, prev, s =>
    ((matchEnds fuel a prev s).flatMap fun pr =>
      if pr.2.length < s.length then matchEnds fuel (.star a) pr.1 pr.2 else []) ++
    [(prev, s)]

/-- A fuel bound large enough for every pattern/text pair we evaluate:
the recursion of `matchEnds` descends one level per AST node traversed
and per `star` iteration, and every pattern in the tables is far smaller
than 256 nodes. -/
def matchFuel (s : List Char) : Nat := (s.length + 2) * 256

/-- `re.search` on the tail of the text starting after `prev`, reporting
the span (in absolute character indices) of the leftmost match, with the
engine's preferred (greedy, left-first) parse. -/
def searchSpanFrom (r : RE) (prev : Option Char) (s : List Char) (pos : Nat) :
    Option (Nat × Nat) :=
  match (matchEnds (matchFuel s) r prev s).head? with
  | some pr => some (pos, pos + (s.length - pr.2.length))
  | none =>
    match s with
    | [] => none
    | c :: rest => searchSpanFrom r (some c) rest (pos + 1)

/-- Python `regex.search(text)` returning the span of the match. -/
def reSearchSpan (r : RE) (s : String) : Option (Nat × Nat) :=
  searchSpanFrom r none s.toList 0

/-- Python `bool(regex.search(text))`. -/
def reSearch (r : RE) (s : String) : Bool :=
  (reSearchSpan r s).isSome

/-! Smart constructors used to transcribe the source's pattern strings. -/

/-- A case-insensitive literal character (all patterns use `re.I`). -/
def REc (c : Char) : RE := RE.pred (fun x => x.toLower == c.toLower)

/-- A case-insensitive literal string. -/
def RElit (s : String) : RE :=
  s.toList.foldr (fun c acc => RE.seq (REc c) acc) RE.eps

/-- Alternation of a non-empty list (left alternative preferred). -/
def REaltN : List RE → RE
  | [] => RE.eps
  | [r] => r
  | r :: rest => RE.alt r (REaltN rest)

/-- Concatenation of a list of regexes. -/
def REseqN (rs : List RE) : RE := rs.foldr RE.seq RE.eps

/-- Greedy `r+`. -/
def REplus (r : RE) : RE := RE.seq r (RE.star r)

/-- Greedy `r?` (matching preferred over skipping). -/
def REopt (r : RE) : RE := RE.alt r RE.eps

/-- `\d`. -/
def REd : RE := RE.pred Char.isDigit

/-- `\s`. -/
def REs : RE := RE.pred pyIsSpace

/-- `.` (any character but newline, as without `re.DOTALL`). -/
def REdot : RE := RE.pred (fun c => !(c == '\n'))

/-! ## Data model (`gmail_client.py` dataclasses and `scanner.py` results) -/

/-- `EmailAttachment` from `gmail_client.py` (the lazily-downloaded raw
bytes are never inspected by the scanner and are omitted). -/
structure EmailAttachment where
  filename : String
  mime_type : String
  size : Int
  attachment_id : String
deriving DecidableEq, Repr

/-- `EmailMessage` from `gmail_client.py`; dates are carried as their ISO
strings since the scanner only ever calls `.isoformat()`. -/
structure EmailMessage where
  message_id : String
  thread_id : String := ""
  from_address : String
  to_addresses : List String := []
  subject : String
  date : String := ""
  body_text : Option String := none
  body_html : Option String := none
  attachments : List EmailAttachment := []
  labels : List String := []
  snippet : String := ""
  permalink : String := ""
deriving DecidableEq, Repr

/-- The `Classification` enum. -/
inductive Classification where
  | DATA_HIGH_CONFIDENCE
  | DATA_MEDIUM_CONFIDENCE
  | UNCERTAIN
  | NOT_DATA
deriving DecidableEq, Repr

/-- `ClassificationResult`. -/
structure ClassificationResult where
  classification : Classification
  score : ℚ
  factors : List String
  matched_patterns : List String := []
deriving DecidableEq, Repr

/-- `ExtractedAsset` (file paths as strings). -/
structure ExtractedAsset where
  asset_type : String
  source_email_id : String
  filename : Option String := none
  file_path : Option String := none
  url : Option String := none
  link_type : Option String := none
  mime_type : Option String := none
  size_bytes : Option Int := none
  row_count : Option Int := none
  columns : Option (List String) := none
  extraction_confidence : ℚ := 1
  error : Option String := none
deriving DecidableEq, Repr

/-- `PartnerPattern`, a catalog entry. -/
structure PartnerPattern where
  partner_name : String
  sender_patterns : List String
  subject_patterns : List String := []
  expected_format : Option String := none
  expected_columns : Option (List String) := none
  column_aliases : List (String × String) := []
  auto_process : Bool := true
  confidence_threshold : ℚ := 4/5
deriving DecidableEq, Repr

/-- `ScanResult` for a single email. -/
structure ScanResult where
  email : EmailMessage
  classification : ClassificationResult
  extracted_assets : List ExtractedAsset
  matched_partner : Option String := none
  pattern_match_confidence : ℚ := 0
  route_action : String := "review"
deriving DecidableEq, Repr

/-! ## `EmailClassifier` pattern tables

Each table entry pairs the source's pattern string (used verbatim in the
factor labels) with its transcription into the `RE` AST. -/

/-- `HIGH_CONF_SUBJECT_PATTERNS`. -/
def HIGH_CONF_SUBJECT_PATTERNS : List (String × RE) :=
  [("\\b(weekly|daily|monthly|quarterly)\\s+(report|data|metrics|analytics)\\b",
    REseqN [.wordB, REaltN [RElit "weekly", RElit "daily", RElit "monthly", RElit "quarterly"],
      REplus REs, REaltN [RElit "report", RElit "data", RElit "metrics", RElit "analytics"], .wordB]),
   ("\\bperformance\\s+(report|data|export|metrics)\\b",
    REseqN [.wordB, RElit "performance", REplus REs,
      REaltN [RElit "report", RElit "data", RElit "export", RElit "metrics"], .wordB]),
   ("\\b(Q[1-4]|\\d{4})\\s+(results|report|data)\\b",
    REseqN [.wordB, REaltN [RE.seq (REc 'Q') (RE.pred fun c => '1' ≤ c && c ≤ '4'),
        REseqN [REd, REd, REd, REd]],
      REplus REs, REaltN [RElit "results", RElit "report", RElit "data"], .wordB]),
   ("\\bmedia\\s+(plan|report|data|metrics)\\b",
    REseqN [.wordB, RElit "media", REplus REs,
      REaltN [RElit "plan", RElit "report", RElit "data", RElit "metrics"], .wordB]),
   ("\\b(campaign|placement|partner)\\s+report\\b",
    REseqN [.wordB, REaltN [RElit "campaign", RElit "placement", RElit "partner"],
      REplus REs, RElit "report", .wordB])]

/-- `MEDIUM_CONF_SUBJECT_PATTERNS`. -/
def MEDIUM_CONF_SUBJECT_PATTERNS : List (String × RE) :=
  [("\\b(attached|export|summary|numbers|results)\\b",
    REseqN [.wordB, REaltN [RElit "attached", RElit "export", RElit "summary",
      RElit "numbers", RElit "results"], .wordB]),
   ("\\b(jan|feb|mar|apr|may|jun|jul|aug|sep|oct|nov|dec)\\s+\\d{4}\\b",
    REseqN [.wordB, REaltN [RElit "jan", RElit "feb", RElit "mar", RElit "apr",
      RElit "may", RElit "jun", RElit "jul", RElit "aug", RElit "sep", RElit "oct",
      RElit "nov", RElit "dec"], REplus REs, REd, REd, REd, REd, .wordB]),
   ("\\bweek\\s*(of|ending)?\\s*\\d",
    REseqN [.wordB, RElit "week", RE.star REs, REopt (REaltN [RElit "of", RElit "ending"]),
      RE.star REs, REd])]

/-- `SKIP_SUBJECT_PATTERNS`. -/
def SKIP_SUBJECT_PATTERNS : List (String × RE) :=
  [("^(re:|fwd:|fw:)\\s*re:",
    REseqN [.bos, REaltN [RElit "re:", RElit "fwd:", RElit "fw:"], RE.star REs, RElit "re:"]),
   ("\\bout\\s+of\\s+office\\b",
    REseqN [.wordB, RElit "out", REplus REs, RElit "of", REplus REs, RElit "office", .wordB]),
   ("\\bautomatic\\s+reply\\b",
    REseqN [.wordB, RElit "automatic", REplus REs, RElit "reply", .wordB]),
   ("\\bunsubscribe\\b", REseqN [.wordB, RElit "unsubscribe", .wordB]),
   ("\\bcalendar\\b", REseqN [.wordB, RElit "calendar", .wordB]),
   ("\\bmeeting\\s+(invite|invitation)\\b",
    REseqN [.wordB, RElit "meeting", REplus REs,
      REaltN [RElit "invite", RElit "invitation"], .wordB]),
   ("\\b(invoice|payment|billing)\\b",
    REseqN [.wordB, REaltN [RElit "invoice", RElit "payment", RElit "billing"], .wordB])]

/-- An apostrophe character, for the two delivery phrases containing one. -/
def apos : String := (Char.ofNat 39).toString

/-- `DELIVERY_PHRASES` (plain lowercase substrings, not regexes). -/
def DELIVERY_PHRASES : List String :=
  ["please find attached", "attached please find", "attached is the",
   "here is the data", "here is the report", "here are the numbers",
   "as requested", "for your review", "latest numbers", "updated report",
   "this week" ++ apos ++ "s data", "this month" ++ apos ++ "s report"]

/-- `METRIC_PATTERNS`. -/
def METRIC_PATTERNS : List (String × RE) :=
  [("\\b(impressions?|imps?)\\b",
    REseqN [.wordB, REaltN [RE.seq (RElit "impression") (REopt (REc 's')),
      RE.seq (RElit "imp") (REopt (REc 's'))], .wordB]),
   ("\\b(clicks?|click-through)\\b",
    REseqN [.wordB, REaltN [RE.seq (RElit "click") (REopt (REc 's')),
      RElit "click-through"], .wordB]),
   ("\\b(spend|cost|budget)\\b",
    REseqN [.wordB, REaltN [RElit "spend", RElit "cost", RElit "budget"], .wordB]),
   ("\\b(conversions?|converts?)\\b",
    REseqN [.wordB, REaltN [RE.seq (RElit "conversion") (REopt (REc 's')),
      RE.seq (RElit "convert") (REopt (REc 's'))], .wordB]),
   ("\\b(views?|video\\s*views?)\\b",
    REseqN [.wordB, REaltN [RE.seq (RElit "view") (REopt (REc 's')),
      REseqN [RElit "video", RE.star REs, RElit "view", REopt (REc 's')]], .wordB]),
   ("\\b(CPM|CPC|CPA|CPV|CPCV)\\b",
    REseqN [.wordB, REaltN [RElit "CPM", RElit "CPC", RElit "CPA", RElit "CPV",
      RElit "CPCV"], .wordB]),
   ("\\b(CTR|VTR|CVR)\\b",
    REseqN [.wordB, REaltN [RElit "CTR", RElit "VTR", RElit "CVR"], .wordB])]

/-- `DATA_EXTENSIONS` (a dict; order is irrelevant, keys are distinct). -/
def DATA_EXTENSIONS : List (String × ℚ) :=
  [(".csv", 3/10), (".xlsx", 3/10), (".xls", 3/10), (".tsv", 3/10),
   (".json", 1/5), (".xml", 1/5)]

/-- `[a-zA-Z0-9]`. -/
def REalnum : RE := RE.pred Char.isAlphanum

/-- `LINK_PATTERNS` (a dict scanned in insertion order). -/
def LINK_PATTERNS : List (String × RE) :=
  [("google_sheets",
    RE.seq (RElit "docs.google.com/spreadsheets/d/")
      (REplus (RE.pred fun c => c.isAlphanum || c == '_' || c == '-'))),
   ("dropbox",
    REaltN [RE.seq (RElit "dropbox.com/s/") (REplus REalnum),
      RElit "dl.dropboxusercontent.com"]),
   ("box",
    REaltN [RE.seq (RElit "box.com/s/") (REplus REalnum),
      RE.seq (RElit "app.box.com/s/") (REplus REalnum)]),
   ("onedrive", REaltN [RElit "1drv.ms/", RElit "onedrive.live.com"]),
   ("s3_presigned",
    REseqN [RElit "s3", RE.pred (fun c => c == '.' || c == '-'),
      REplus (RE.pred fun c => c.isAlpha || c.isDigit || c == '-'),
      RElit ".amazonaws.com", RE.star REdot, RElit "X-Amz-Signature"])]

/-! ## `EmailClassifier.classify` -/

/-- `EmailClassifier._analyze_subject`: first high-confidence pattern
match gives +0.30, first medium-confidence match gives +0.15. -/
def analyzeSubject (subject : String) : ℚ × List String :=
  let high := HIGH_CONF_SUBJECT_PATTERNS.find? fun pr => reSearch pr.2 subject
  let med := MEDIUM_CONF_SUBJECT_PATTERNS.find? fun pr => reSearch pr.2 subject
  let s1 : ℚ × List String := match high with
    | some pr => (3/10, ["subject_high_match:" ++ pr.1.take 30])
    | none => (0, [])
  let s2 : ℚ × List String := match med with
    | some pr => (3/20, ["subject_med_match:" ++ pr.1.take 30])
    | none => (0, [])
  (s1.1 + s2.1, s1.2 ++ s2.2)

/-- `EmailClassifier._analyze_body`: first delivery phrase +0.20, plus
`min(0.15, 0.05 * number of distinct metric patterns matched)`. -/
def analyzeBody (body : String) : ℚ × List String :=
  let bodyLower := body.toLower
  let s1 : ℚ × List String :=
    match DELIVERY_PHRASES.find? (fun ph => strContains bodyLower ph) with
    | some ph => (1/5, ["body_delivery_phrase:" ++ ph.take 20])
    | none => (0, [])
  let metricCount := (METRIC_PATTERNS.filter fun pr => reSearch pr.2 body).length
  let s2 : ℚ × List String :=
    if 0 < metricCount then
      (min (3/20) ((metricCount : ℚ) * (1/20)),
       ["body_metrics_mentioned:" ++ toString metricCount])
    else (0, [])
  (s1.1 + s2.1, s1.2 ++ s2.2)

/-- `EmailClassifier._analyze_attachments`: the first attachment whose
extension is a recognized data extension contributes that extension's
weight. -/
def analyzeAttachments (atts : List EmailAttachment) : ℚ × List String :=
  match atts.find? (fun att =>
      (DATA_EXTENSIONS.lookup ((pySuffix att.filename).toLower)).isSome) with
  | some att =>
    match DATA_EXTENSIONS.lookup ((pySuffix att.filename).toLower) with
    | some w => (w, ["attachment_data_file:" ++ att.filename])
    | none => (0, [])
  | none => (0, [])

/-- `EmailClassifier._analyze_links`: first link pattern found in the
body contributes +0.20. -/
def analyzeLinks (body : String) : ℚ × List String :=
  match LINK_PATTERNS.find? (fun pr => reSearch pr.2 body) with
  | some pr => (1/5, ["link_detected:" ++ pr.1])
  | none => (0, [])

/-- `email.subject.lower().startswith(("re:", "fwd:", "fw:"))`. -/
def startsWithReply (subject : String) : Bool :=
  let l := subject.toLower
  l.startsWith "re:" || l.startsWith "fwd:" || l.startsWith "fw:"

/-- `body = email.body_text or email.body_html or ""`. -/
def pyBody (email : EmailMessage) : String :=
  pyOrStr email.body_text (pyOrStr email.body_html "")

/-- The threshold chain at the end of `classify` assigning the bucket. -/
def classifyBucket (score : ℚ) : Classification :=
  if 7/10 ≤ score then .DATA_HIGH_CONFIDENCE
  else if 1/2 ≤ score then .DATA_MEDIUM_CONFIDENCE
  else if 3/10 ≤ score then .UNCERTAIN
  else .NOT_DATA

/-- `EmailClassifier.classify`. -/
def classify (email : EmailMessage) : ClassificationResult :=
  if SKIP_SUBJECT_PATTERNS.any (fun pr => reSearch pr.2 email.subject) then
    { classification := .NOT_DATA, score := 0, factors := ["skip_pattern_matched"] }
  else
    let subj := analyzeSubject email.subject
    let body := pyBody email
    let bodyA := analyzeBody body
    let attA := analyzeAttachments email.attachments
    let linkA := analyzeLinks body
    let score0 := subj.1 + bodyA.1 + attA.1 + linkA.1
    let factors0 := subj.2 ++ bodyA.2 ++ attA.2 ++ linkA.2
    let score1 := if startsWithReply email.subject then score0 - 1/10 else score0
    let factors := if startsWithReply email.subject
                   then factors0 ++ ["reply_forward_penalty"] else factors0
    let score := max 0 (min 1 score1)
    { classification := classifyBucket score, score := score, factors := factors }

/-! ## `PatternMatcher` -/

/-- One element of `PatternMatcher._compiled_patterns`: a catalog entry
together with its sender and subject patterns compiled to `RE`
(`__init__` converts each sender glob via
`replace("*", ".*").replace("?", ".")` and `re.compile(..., re.I)`;
the compiled forms are carried explicitly here). -/
structure CompiledEntry where
  pat : PartnerPattern
  senderRes : List RE
  subjectRes : List RE

/-- The sender-pattern contribution to one catalog entry's score
(+0.30 when any compiled sender regex matches the from address). -/
def senderScore (ent : CompiledEntry) (email : EmailMessage) : ℚ × List String :=
  if ent.senderRes.any (fun r => reSearch r email.from_address)
  then (3/10, ["sender_match"]) else (0, [])

/-- The subject-pattern contribution (+0.20 on any match). -/
def subjectScore (ent : CompiledEntry) (email : EmailMessage) : ℚ × List String :=
  if ent.subjectRes.any (fun r => reSearch r email.subject)
  then (1/5, ["subject_pattern_match"]) else (0, [])

/-- The expected-format contribution (+0.20 when some asset with a truthy
filename has the partner's expected extension, both sides lowercased and
stripped of leading dots). -/
def formatScore (ent : CompiledEntry) (assets : List ExtractedAsset) :
    ℚ × List String :=
  let fmtHit : Bool :=
    match ent.pat.expected_format with
    | some fmt =>
      !(fmt == "") && !assets.isEmpty &&
      assets.any (fun a =>
        pyTruthyStr a.filename &&
        pyLstripDots ((pySuffix (a.filename.getD "")).toLower) ==
          pyLstripDots fmt.toLower)
    | none => false
  if fmtHit then (1/5, ["format_match"]) else (0, [])

/-- The expected-columns contribution: against the first asset carrying a
truthy column list, `0.30 * matched / expected` by case-insensitive exact
name membership. -/
def columnScoreAux (cols : List String) (assets : List ExtractedAsset) :
    ℚ × List String :=
  if cols.isEmpty then (0, [])
  else
    match assets.find? (fun a =>
        match a.columns with | some cl => !cl.isEmpty | none => false) with
    | some a =>
      let cl := (a.columns.getD []).map String.toLower
      let matched := cols.countP (fun c => cl.contains c.toLower)
      (3/10 * (matched : ℚ) / (cols.length : ℚ),
       ["column_match_" ++ toString matched ++ "_of_" ++ toString cols.length])
    | none => (0, [])

def columnScore (ent : CompiledEntry) (assets : List ExtractedAsset) :
    ℚ × List String :=
  match ent.pat.expected_columns with
  | some cols => columnScoreAux cols assets
  | none => (0, [])

/-- The score and factor list one catalog entry gets for a message and
its extracted assets (the body of the loop in `PatternMatcher.match`). -/
def matchEntry (ent : CompiledEntry) (email : EmailMessage)
    (assets : List ExtractedAsset) : ℚ × List String :=
  ((senderScore ent email).1 + (subjectScore ent email).1 +
     (formatScore ent assets).1 + (columnScore ent assets).1,
   (senderScore ent email).2 ++ (subjectScore ent email).2 ++
     (formatScore ent assets).2 ++ (columnScore ent assets).2)

/-- The fold of `PatternMatcher.match` over the catalog: keep the entry
whose score strictly exceeds the running best. -/
def matchAux (email : EmailMessage) (assets : List ExtractedAsset) :
    List CompiledEntry → Option String × ℚ × List String →
    Option String × ℚ × List String
  | [], st => st
  | ent :: rest, st =>
    let sc := matchEntry ent email assets
    matchAux email assets rest
      (if st.2.1 < sc.1 then (some ent.pat.partner_name, sc.1, sc.2) else st)

/-- `PatternMatcher.match`: best match over the catalog, starting from
`(None, 0.0, [])`. -/
def patternMatch (catalog : List CompiledEntry) (email : EmailMessage)
    (assets : List ExtractedAsset) : Option String × ℚ × List String :=
  matchAux email assets catalog (none, 0, [])

/-! ## `EmailScanner` -/

/-- The configuration state of an `EmailScanner` instance: the compiled
catalog (`self.matcher` and `self.patterns` both come from the same
`patterns` argument, in the same order), the extraction directory, and
the blocklists as stored by `__init__`. -/
structure EmailScanner where
  catalog : List CompiledEntry
  extraction_dir : String
  blocklist_senders : List String
  blocklist_domains : List String

/-- `EmailScanner.__init__` lowercases both blocklists before storing. -/
def mkScanner (catalog : List CompiledEntry) (extraction_dir : String)
    (blocklist_senders blocklist_domains : List String) : EmailScanner :=
  { catalog := catalog, extraction_dir := extraction_dir,
    blocklist_senders := blocklist_senders.map String.toLower,
    blocklist_domains := blocklist_domains.map String.toLower }

/-- `self.patterns`. -/
def EmailScanner.patterns (s : EmailScanner) : List PartnerPattern :=
  s.catalog.map (·.pat)

/-- `EmailScanner.is_blocklisted`: a sender entry starting `*@` matches
by address suffix (on the part after the `*`), any other entry by
substring; a domain entry matches when `"@" + domain` occurs in the
lowercased address. -/
def is_blocklisted (s : EmailScanner) (email : EmailMessage) : Bool :=
  let from_addr := email.from_address.toLower
  s.blocklist_senders.any (fun blocked =>
    if blocked.startsWith "*@" then from_addr.endsWith (blocked.drop 1)
    else strContains from_addr blocked) ||
  s.blocklist_domains.any (fun domain => strContains from_addr ("@" ++ domain))

/-- The I/O collaborators of the scanner, as oracle functions:
`saveAttachment` models `gmail.save_attachment` (an `Except.error` is the
exception it may raise), `fileExists` models `Path.exists`,
`readFirstRow` models the extension-dispatched first-row/na read inside
`_extract_columns` (an `Except.error` is an exception raised while
probing, `.ok none` an unrecognized extension or headerless file), and
`pipelineFault` models an exception raised by any collaborator call
inside the per-message `try` block of `EmailScanner.scan`. -/
structure ScanEnv where
  saveAttachment : String → EmailAttachment → String → Except String String
  fileExists : String → Bool
  readFirstRow : String → Except String (Option (List String))
  pipelineFault : EmailMessage → Option String

/-- `EmailScanner._extract_columns`: best effort; every exception during
the probe is caught and turned into `None`. -/
def extractColumns (env : ScanEnv) (file_path : String) : Option (List String) :=
  match env.readFirstRow file_path with
  | .ok cols => cols
  | .error _ => none

/-- The asset built for one recognized attachment inside
`EmailScanner.extract_assets`: on a successful download, filename, path,
mime type, size and the probed columns; on a download failure, an asset
carrying only the filename and the error. -/
def attachmentAsset (env : ScanEnv) (message_id extract_path : String)
    (att : EmailAttachment) : ExtractedAsset :=
  match env.saveAttachment message_id att extract_path with
  | .ok file_path =>
    { asset_type := "attachment", source_email_id := message_id,
      filename := some att.filename, file_path := some file_path,
      mime_type := some att.mime_type, size_bytes := some att.size,
      columns := if env.fileExists file_path then extractColumns env file_path
                 else none }
  | .error e =>
    { asset_type := "attachment", source_email_id := message_id,
      filename := some att.filename, error := some e }

/-- An attachment has a recognized data extension
(`ext in EmailClassifier.DATA_EXTENSIONS`). -/
def isDataAttachment (att : EmailAttachment) : Bool :=
  (DATA_EXTENSIONS.lookup ((pySuffix att.filename).toLower)).isSome

/-- `EmailScanner.extract_assets`: attachments with a recognized data
extension (in the message's order), then one link asset per link pattern
found in the body, in table order, carrying the matched URL. -/
def extract_assets (env : ScanEnv) (s : EmailScanner) (email : EmailMessage)
    (run_id : String) : List ExtractedAsset :=
  let extract_path := s.extraction_dir ++ "/" ++ run_id
  let attAssets := email.attachments.filterMap fun att =>
    if isDataAttachment att
    then some (attachmentAsset env email.message_id extract_path att)
    else none
  let body := pyBody email
  let linkAssets := LINK_PATTERNS.filterMap fun pr =>
    (reSearchSpan pr.2 body).map fun ij =>
      { asset_type := "link", source_email_id := email.message_id,
        url := some (strSlice body ij.1 ij.2), link_type := some pr.1 }
  attAssets ++ linkAssets

/-- The route decision at the end of `scan_email` (lines 600–610 of
`scanner.py`): `route_action = "review"` by default; when the matcher
returned a truthy partner name, look up the first catalog entry bearing
that name and auto-process when its flag is set and the confidence
reaches its threshold; when the partner is falsy (`None` or `""`) fall
back to the (here unreachable) not-data skip. -/
def routeDefault (c : ClassificationResult) : String :=
  if c.classification = .NOT_DATA then "skip" else "review"

/-- The catalog lookup for a truthy partner name: the first entry with
that name decides between auto-process and review. -/
def routeLookup (s : EmailScanner) (name : String) (conf : ℚ) : String :=
  match s.patterns.find? (fun p => p.partner_name == name) with
  | some p =>
    if p.auto_process && decide (p.confidence_threshold ≤ conf)
    then "auto_process" else "review"
  | none => "review"

def routeFor (s : EmailScanner) (c : ClassificationResult)
    (partner : Option String) (conf : ℚ) : String :=
  match partner with
  | some name =>
    if name ≠ "" then routeLookup s name conf else routeDefault c
  | none => routeDefault c

/-- `EmailScanner.scan_email`: blocklist check, classification,
extraction, pattern match and the route decision. -/
def scan_email (env : ScanEnv) (s : EmailScanner) (email : EmailMessage)
    (run_id : String) : ScanResult :=
  if is_blocklisted s email then
    { email := email,
      classification :=
        { classification := .NOT_DATA, score := 0, factors := ["blocklisted_sender"] },
      extracted_assets := [], route_action := "skip" }
  else
    let c := classify email
    if c.classification = .NOT_DATA then
      { email := email, classification := c, extracted_assets := [],
        route_action := "skip" }
    else
      let assets := extract_assets env s email run_id
      let m := patternMatch s.catalog email assets
      { email := email, classification := { c with matched_patterns := m.2.2 },
        extracted_assets := assets, matched_partner := m.1,
        pattern_match_confidence := m.2.1,
        route_action := routeFor s c m.1 m.2.1 }

/-! ## Run orchestration (`EmailScanner.scan`) -/

/-- One element of `raw_sources` in an auto-process payload
(`email_metadata` fields are inlined with a `meta_` prefix). -/
structure RawSource where
  source_system : String
  source_location : String
  partner_name : Option String
  received_at : String
  payload_type : String
  payload_path : String
  meta_message_id : String
  meta_from : String
  meta_subject : String
  meta_received_date : String
deriving DecidableEq, Repr

/-- An auto-process payload for the harmonization pipeline. -/
structure AutoPayload where
  payload_id : String
  partner_name : Option String
  pattern_match_confidence : ℚ
  raw_sources : List RawSource
deriving DecidableEq, Repr

/-- `str(x)` for an optional string, as Python renders `None`. -/
def pyShowOpt : Option String → String
  | some s => s
  | none => "None"

/-- `EmailScanner._format_auto_process_payload`. -/
def format_auto_process_payload (result : ScanResult) (run_id : String) :
    AutoPayload :=
  { payload_id := run_id ++ "-" ++ result.email.message_id.take 8,
    partner_name := result.matched_partner,
    pattern_match_confidence := result.pattern_match_confidence,
    raw_sources := result.extracted_assets.filterMap fun a =>
      (a.file_path).map fun p =>
        { source_system := "email",
          source_location := "email://" ++ result.email.message_id ++ "/" ++
            pyShowOpt a.filename,
          partner_name := result.matched_partner,
          received_at := result.email.date,
          payload_type := "file_reference", payload_path := p,
          meta_message_id := result.email.message_id,
          meta_from := result.email.from_address,
          meta_subject := result.email.subject,
          meta_received_date := result.email.date } }

/-- A summary of one extracted asset inside a review item. -/
structure AssetSummary where
  asset_type : String
  filename : Option String
  url : Option String
  columns : Option (List String)
  error : Option String
deriving DecidableEq, Repr

/-- A review-queue item (`email_summary` fields inlined). -/
structure ReviewItem where
  review_id : String
  message_id : String
  from_address : String
  subject : String
  date : String
  snippet : String
  classification_score : ℚ
  classification_factors : List String
  extracted_assets : List AssetSummary
  suggested_partner : Option String
  pattern_match_confidence : ℚ
deriving DecidableEq, Repr

/-- `EmailScanner._format_review_item`. -/
def format_review_item (result : ScanResult) (run_id : String) : ReviewItem :=
  { review_id := "rev-" ++ run_id ++ "-" ++ result.email.message_id.take 8,
    message_id := result.email.message_id,
    from_address := result.email.from_address,
    subject := result.email.subject,
    date := result.email.date,
    snippet := result.email.snippet,
    classification_score := result.classification.score,
    classification_factors := result.classification.factors,
    extracted_assets := result.extracted_assets.map fun a =>
      { asset_type := a.asset_type, filename := a.filename, url := a.url,
        columns := a.columns, error := a.error },
    suggested_partner := result.matched_partner,
    pattern_match_confidence := result.pattern_match_confidence }

/-- The run accumulator built by `EmailScanner.scan` (timestamps are
outside the model). -/
structure RunResults where
  run_id : String
  emails_scanned : Nat
  emails_classified_as_data : Nat
  auto_processed : List AutoPayload
  review_queue : List ReviewItem
  errors : List (String × String)
deriving DecidableEq, Repr

/-- One message's pipeline inside the per-message `try` of
`EmailScanner.scan`: either the environment raises somewhere in it
(`pipelineFault`) or `scan_email` runs to completion. -/
def scanStep (env : ScanEnv) (s : EmailScanner) (run_id : String)
    (email : EmailMessage) : Except String ScanResult :=
  match env.pipelineFault email with
  | some msg => .error msg
  | none => .ok (scan_email env s email run_id)

/-- The loop body of `EmailScanner.scan`: count the message, then either
record its outcome or append a keyed error entry. -/
def scanFold (env : ScanEnv) (s : EmailScanner) (run_id : String)
    (r : RunResults) (email : EmailMessage) : RunResults :=
  let r := { r with emails_scanned := r.emails_scanned + 1 }
  match scanStep env s run_id email with
  | .ok sr =>
    let r := if sr.classification.classification ≠ .NOT_DATA
             then { r with emails_classified_as_data :=
                             r.emails_classified_as_data + 1 }
             else r
    if sr.route_action = "auto_process" then
      { r with auto_processed :=
                 r.auto_processed ++ [format_auto_process_payload sr run_id] }
    else if sr.route_action = "review" then
      { r with review_queue := r.review_queue ++ [format_review_item sr run_id] }
    else r
  | .error msg => { r with errors := r.errors ++ [(email.message_id, msg)] }

/-- `EmailScanner.scan` over the fetched message sequence. -/
def scan (env : ScanEnv) (s : EmailScanner) (run_id : String)
    (emails : List EmailMessage) : RunResults :=
  emails.foldl (scanFold env s run_id)
    { run_id := run_id, emails_scanned := 0, emails_classified_as_data := 0,
      auto_processed := [], review_queue := [], errors := [] }

/-! Per-message outcome projections of the run loop. -/

/-- The error entry a message contributes to the run's error list. -/
def errProj (env : ScanEnv) (s : EmailScanner) (run_id : String)
    (email : EmailMessage) : Option (String × String) :=
  match scanStep env s run_id email with
  | .error m => some (email.message_id, m)
  | .ok _ => none

/-- The auto-process payload a message contributes. -/
def autoProj (env : ScanEnv) (s : EmailScanner) (run_id : String)
    (email : EmailMessage) : Option AutoPayload :=
  match scanStep env s run_id email with
  | .ok sr => if sr.route_action = "auto_process"
              then some (format_auto_process_payload sr run_id) else none
  | .error _ => none

/-- The review item a message contributes. -/
def reviewProj (env : ScanEnv) (s : EmailScanner) (run_id : String)
    (email : EmailMessage) : Option ReviewItem :=
  match scanStep env s run_id email with
  | .ok sr => if sr.route_action = "review"
              then some (format_review_item sr run_id) else none
  | .error _ => none

/-- Whether a message resolves to the skip outcome. -/
def skipPred (env : ScanEnv) (s : EmailScanner) (run_id : String)
    (email : EmailMessage) : Bool :=
  match scanStep env s run_id email with
  | .ok sr => sr.route_action = "skip"
  | .error _ => false

/-- Whether a message is counted in `emails_classified_as_data`. -/
def dataPred (env : ScanEnv) (s : EmailScanner) (run_id : String)
    (email : EmailMessage) : Bool :=
  match scanStep env s run_id email with
  | .ok sr => sr.classification.classification ≠ .NOT_DATA
  | .error _ => false

/-! ## Helper lemmas -/

lemma clamp01_nonneg (x : ℚ) : 0 ≤ max 0 (min 1 x) := le_max_left 0 _

lemma clamp01_le_one (x : ℚ) : max 0 (min 1 x) ≤ 1 :=
  max_le (by norm_num) (min_le_left 1 x)

/-- The threshold chain of `classifyBucket`, as four iffs. -/
lemma classifyBucket_iff (q : ℚ) :
    (classifyBucket q = Classification.DATA_HIGH_CONFIDENCE ↔ 7/10 ≤ q) ∧
    (classifyBucket q = Classification.DATA_MEDIUM_CONFIDENCE ↔ 1/2 ≤ q ∧ q < 7/10) ∧
    (classifyBucket q = Classification.UNCERTAIN ↔ 3/10 ≤ q ∧ q < 1/2) ∧
    (classifyBucket q = Classification.NOT_DATA ↔ q < 3/10) := by
  unfold classifyBucket
  split_ifs with h1 h2 h3 <;>
    refine ⟨?_, ?_, ?_, ?_⟩ <;> simp <;> try (intro h1 h2; linarith)
  all_goals first
    | linarith
    | (intro h; linarith)
    | (constructor <;> intro h <;> linarith)
    | (refine ⟨by linarith, by linarith⟩)

/-- `classify` is bounded by the clamp and assigns the bucket of its own
score. -/
lemma classify_spec (email : EmailMessage) :
    0 ≤ (classify email).score ∧ (classify email).score ≤ 1 ∧
    (classify email).classification = classifyBucket (classify email).score := by
  unfold classify
  by_cases h : SKIP_SUBJECT_PATTERNS.any (fun pr => reSearch pr.2 email.subject)
  · simp only [h, if_true]
    refine ⟨le_refl 0, by norm_num, ?_⟩
    show Classification.NOT_DATA = classifyBucket 0
    unfold classifyBucket
    norm_num
  · simp only [h, Bool.false_eq_true, if_false]
    exact ⟨clamp01_nonneg _, clamp01_le_one _, trivial⟩

/-! ## Claim C2 -/

/-- C2: for every message, `classify` returns a score in [0,1], and the
classification bucket is determined by the score against the fixed
thresholds: score ≥ 0.70 gives high-confidence data, 0.50 ≤ score < 0.70
gives medium-confidence data, 0.30 ≤ score < 0.50 gives uncertain/review,
and score < 0.30 gives not-data. -/
theorem claim_C2 (email : EmailMessage) :
    0 ≤ (classify email).score ∧ (classify email).score ≤ 1 ∧
    ((classify email).classification = Classification.DATA_HIGH_CONFIDENCE ↔
      7/10 ≤ (classify email).score) ∧
    ((classify email).classification = Classification.DATA_MEDIUM_CONFIDENCE ↔
      1/2 ≤ (classify email).score ∧ (classify email).score < 7/10) ∧
    ((classify email).classification = Classification.UNCERTAIN ↔
      3/10 ≤ (classify email).score ∧ (classify email).score < 1/2) ∧
    ((classify email).classification = Classification.NOT_DATA ↔
      (classify email).score < 3/10) := by
  obtain ⟨h0, h1, hb⟩ := classify_spec email
  obtain ⟨i1, i2, i3, i4⟩ := classifyBucket_iff (classify email).score
  rw [hb]
  exact ⟨h0, h1, i1, i2, i3, i4⟩

/-! ## Claim C3 -/

/-- C3: for every message whose subject matches any skip-subject pattern,
`classify` returns not-data with score exactly 0 and no contribution from
any other signal group — the whole result is fixed, independent of the
body, attachments and links. -/
theorem claim_C3 (email : EmailMessage)
    (h : SKIP_SUBJECT_PATTERNS.any (fun pr => reSearch pr.2 email.subject) = true) :
    classify email =
      { classification := Classification.NOT_DATA, score := 0,
        factors := ["skip_pattern_matched"], matched_patterns := [] } := by
  unfold classify
  simp only [h, if_true]

/-- Witness for C3 at a concrete out-of-scope reply chain with a data-like
body and a data attachment, which are all ignored. -/
theorem claim_C3_witness :
    (SKIP_SUBJECT_PATTERNS.any (fun pr =>
        reSearch pr.2 "Re: Re: lunch tomorrow?") = true) ∧
    classify
      { message_id := "m3", from_address := "a@b",
        subject := "Re: Re: lunch tomorrow?",
        body_text := some "please find attached impressions",
        attachments := [{ filename := "report.xlsx", mime_type := "app/x",
                          size := 9, attachment_id := "a1" }] } =
      { classification := Classification.NOT_DATA, score := 0,
        factors := ["skip_pattern_matched"], matched_patterns := [] } :=
  ⟨by with_unfolding_all decide, claim_C3 _ (by with_unfolding_all decide)⟩

/-! ## Claim C4 -/

/-- The concrete message of Scenario A: subject
"Weekly Performance Report - Jan 2026", a body containing
"please find attached" and "impressions", one attachment `report.xlsx`. -/
def c4Email : EmailMessage :=
  { message_id := "m4", from_address := "partner@example.com",
    subject := "Weekly Performance Report - Jan 2026",
    body_text := some "please find attached impressions",
    attachments := [{ filename := "report.xlsx",
                      mime_type := "application/vnd.ms-excel", size := 100,
                      attachment_id := "a1" }] }

set_option maxRecDepth 400000 in
/-- Counterexample to C4: on Scenario A's message the classifier score is
not 0.85 — the subject additionally matches the medium-confidence
month-year pattern (`Jan 2026`, +0.15), so the raw sum is 1.00. -/
theorem claim_C4_counterexample : (classify c4Email).score ≠ 17/20 := by
  have h : (classify c4Email).score = 1 := by with_unfolding_all decide
  rw [h]; norm_num

set_option maxRecDepth 400000 in
/-- C4 as amended: on Scenario A's message the score is
clamp(0.30 + 0.15 + 0.20 + 0.05 + 0.30) = 1.00 (the subject matches both
a high- and the month-year medium-confidence pattern), and the
classification is high-confidence data. -/
theorem claim_C4_amended :
    (classify c4Email).score = 1 ∧
    (classify c4Email).classification = Classification.DATA_HIGH_CONFIDENCE ∧
    (classify c4Email).factors =
      ["subject_high_match:" ++ "\\bperformance\\s+(report|data|e",
       "subject_med_match:" ++ "\\b(jan|feb|mar|apr|may|jun|jul",
       "body_delivery_phrase:please find attached",
       "body_metrics_mentioned:1",
       "attachment_data_file:report.xlsx"] := by
  with_unfolding_all decide

/-! ## Claim C1 -/

/-- A trivial environment: downloads fail, nothing exists on disk, no
fault is injected into the per-message pipeline. -/
def envTriv : ScanEnv :=
  { saveAttachment := fun _ _ _ => .error "io unavailable",
    fileExists := fun _ => false,
    readFirstRow := fun _ => .ok none,
    pipelineFault := fun _ => none }

/-- A catalog entry whose partner name is the empty string (compiled from
the sender glob `a@b`, which has no wildcard). -/
def entryC1 : CompiledEntry :=
  { pat := { partner_name := "", sender_patterns := ["a@b"],
             auto_process := true, confidence_threshold := 0 },
    senderRes := [RElit "a@b"], subjectRes := [] }

/-- Scanner configured with only `entryC1` and empty blocklists. -/
def scannerC1 : EmailScanner := mkScanner [entryC1] "/tmp/extracts" [] []

/-- A message that classifies as data (subject `Weekly Report`, +0.30 →
uncertain) and matches `entryC1`'s sender pattern. -/
def emailC1 : EmailMessage :=
  { message_id := "m1", from_address := "a@b", subject := "Weekly Report" }

set_option maxRecDepth 400000 in
/-- Counterexample to C1: the matcher returns the partner named `""` with
confidence 0.30 ≥ its threshold 0 and `auto_process = True`, yet the
route is `review`, because `if partner:` treats the empty name as falsy.
So `route_action = "auto_process"` does not follow from "a partner
matched, its flag is set, and the confidence reaches the threshold". -/
theorem claim_C1_counterexample :
    (scan_email envTriv scannerC1 emailC1 "run").matched_partner = some "" ∧
    entryC1.pat.auto_process = true ∧
    entryC1.pat.confidence_threshold ≤
      (scan_email envTriv scannerC1 emailC1 "run").pattern_match_confidence ∧
    (scan_email envTriv scannerC1 emailC1 "run").route_action = "review" := by
  with_unfolding_all decide

/-- The auto-process side condition of the corrected C1: the matcher
returned a non-empty partner name, and the first catalog entry bearing
that name has its flag set and a threshold not above the confidence. -/
def routeAutoCond (s : EmailScanner) (partner : Option String) (conf : ℚ) : Prop :=
  ∃ name, partner = some name ∧ name ≠ "" ∧
    ∃ p, s.patterns.find? (fun q => q.partner_name == name) = some p ∧
      p.auto_process = true ∧ p.confidence_threshold ≤ conf

/-- With a non-not-data classification, `routeDefault` is `review`. -/
lemma routeDefault_review (c : ClassificationResult)
    (hc : c.classification ≠ Classification.NOT_DATA) :
    routeDefault c = "review" := by
  unfold routeDefault; rw [if_neg hc]

/-- `routeFor` characterized, assuming the classification is not
not-data (which holds whenever `routeFor` is reached). -/
lemma routeFor_spec (s : EmailScanner) (c : ClassificationResult)
    (partner : Option String) (conf : ℚ)
    (hc : c.classification ≠ Classification.NOT_DATA) :
    (routeFor s c partner conf = "auto_process" ↔ routeAutoCond s partner conf) ∧
    (routeFor s c partner conf = "review" ↔ ¬ routeAutoCond s partner conf) := by
  have hrevne : ("review" : String) ≠ "auto_process" := by decide
  have hautone : ("auto_process" : String) ≠ "review" := by decide
  match partner with
  | none =>
    have hno : ¬ routeAutoCond s none conf := by
      rintro ⟨name, hn, -⟩; exact absurd hn (by simp)
    have hr : routeFor s c none conf = "review" := routeDefault_review c hc
    rw [hr]
    exact ⟨iff_of_false hrevne hno, iff_of_true rfl hno⟩
  | some name =>
    by_cases hne : name = ""
    · subst hne
      have hno : ¬ routeAutoCond s (some "") conf := by
        rintro ⟨n, hn, hne2, -⟩
        obtain rfl : n = "" := by simpa using hn.symm
        exact absurd rfl hne2
      have hr : routeFor s c (some "") conf = "review" := by
        have h0 : routeFor s c (some "") conf = routeDefault c := by
          show (if ("" : String) ≠ "" then routeLookup s "" conf
                else routeDefault c) = routeDefault c
          rw [if_neg (show ¬ ("" : String) ≠ "" by simp)]
        rw [h0]; exact routeDefault_review c hc
      rw [hr]
      exact ⟨iff_of_false hrevne hno, iff_of_true rfl hno⟩
    · have h0 : routeFor s c (some name) conf = routeLookup s name conf := by
        show (if name ≠ "" then routeLookup s name conf
              else routeDefault c) = routeLookup s name conf
        rw [if_pos hne]
      rw [h0]
      cases hf : s.patterns.find? (fun q => q.partner_name == name) with
      | none =>
        have hno : ¬ routeAutoCond s (some name) conf := by
          rintro ⟨n, hn, -, p, hp, -⟩
          obtain rfl : n = name := by simpa using hn.symm
          rw [hf] at hp; exact absurd hp (by simp)
        have hr : routeLookup s name conf = "review" := by
          unfold routeLookup; rw [hf]
        rw [hr]
        exact ⟨iff_of_false hrevne hno, iff_of_true rfl hno⟩
      | some p =>
        by_cases hg : p.auto_process = true ∧ p.confidence_threshold ≤ conf
        · have hyes : routeAutoCond s (some name) conf :=
            ⟨name, rfl, hne, p, hf, hg.1, hg.2⟩
          have hr : routeLookup s name conf = "auto_process" := by
            unfold routeLookup; rw [hf]
            show (if (p.auto_process && decide (p.confidence_threshold ≤ conf)) = true
                  then "auto_process" else "review") = "auto_process"
            rw [if_pos (by simp [hg.1, hg.2])]
          rw [hr]
          exact ⟨iff_of_true rfl hyes, iff_of_false hautone (not_not_intro hyes)⟩
        · have hno : ¬ routeAutoCond s (some name) conf := by
            rintro ⟨n, hn, -, q, hq, hflag, hconf⟩
            obtain rfl : n = name := by simpa using hn.symm
            rw [hf] at hq
            obtain rfl : q = p := by simpa using hq.symm
            exact hg ⟨hflag, hconf⟩
          have hr : routeLookup s name conf = "review" := by
            unfold routeLookup; rw [hf]
            show (if (p.auto_process && decide (p.confidence_threshold ≤ conf)) = true
                  then "auto_process" else "review") = "review"
            rw [if_neg ?_]
            intro hb
            rw [Bool.and_eq_true] at hb
            exact hg ⟨hb.1, of_decide_eq_true hb.2⟩
          rw [hr]
          exact ⟨iff_of_false hrevne hno, iff_of_true rfl hno⟩

/-- The matcher returned no partner: the auto condition cannot hold. -/
lemma routeAutoCond_none (s : EmailScanner) (conf : ℚ) :
    ¬ routeAutoCond s none conf := by
  rintro ⟨name, hn, -⟩; exact absurd hn (by simp)

/-- C1 as amended: `route_action = "skip"` iff the sender is blocklisted
or the resulting classification is not-data; `route_action =
"auto_process"` iff the matcher returned a *non-empty* partner name whose
first catalog entry has `auto_process` set and a threshold not above the
match confidence (the empty partner name is falsy in `if partner:` and
routes to review); in every other case `route_action = "review"`. -/
theorem claim_C1_amended (env : ScanEnv) (s : EmailScanner)
    (email : EmailMessage) (run_id : String) :
    ((scan_email env s email run_id).route_action = "skip" ↔
      (is_blocklisted s email = true ∨
       (scan_email env s email run_id).classification.classification =
         Classification.NOT_DATA)) ∧
    ((scan_email env s email run_id).route_action = "auto_process" ↔
      routeAutoCond s (scan_email env s email run_id).matched_partner
        (scan_email env s email run_id).pattern_match_confidence) ∧
    ((scan_email env s email run_id).route_action = "review" ↔
      (¬ is_blocklisted s email = true ∧
       (scan_email env s email run_id).classification.classification ≠
         Classification.NOT_DATA ∧
       ¬ routeAutoCond s (scan_email env s email run_id).matched_partner
           (scan_email env s email run_id).pattern_match_confidence)) := by
  by_cases hb : is_blocklisted s email = true
  · have he : scan_email env s email run_id =
        { email := email,
          classification := { classification := .NOT_DATA, score := 0,
                              factors := ["blocklisted_sender"] },
          extracted_assets := [], route_action := "skip" } := by
      unfold scan_email; rw [if_pos hb]
    have h1 : (scan_email env s email run_id).route_action = "skip" := by rw [he]
    have h2 : (scan_email env s email run_id).classification.classification =
        Classification.NOT_DATA := by rw [he]
    have h3 : (scan_email env s email run_id).matched_partner = none := by rw [he]
    rw [h1, h2, h3]
    refine ⟨iff_of_true rfl (Or.inl hb), ?_, ?_⟩
    · exact iff_of_false (by decide) (routeAutoCond_none s _)
    · exact iff_of_false (by decide) (fun h => h.1 hb)
  · by_cases hc : (classify email).classification = Classification.NOT_DATA
    · have he : scan_email env s email run_id =
          { email := email, classification := classify email,
            extracted_assets := [], route_action := "skip" } := by
        unfold scan_email; rw [if_neg hb]
        show (if (classify email).classification = Classification.NOT_DATA
              then _ else _) = _
        rw [if_pos hc]
      have h1 : (scan_email env s email run_id).route_action = "skip" := by rw [he]
      have h2 : (scan_email env s email run_id).classification.classification =
          Classification.NOT_DATA := by rw [he]; exact hc
      have h3 : (scan_email env s email run_id).matched_partner = none := by rw [he]
      rw [h1, h2, h3]
      refine ⟨iff_of_true rfl (Or.inr rfl), ?_, ?_⟩
      · exact iff_of_false (by decide) (routeAutoCond_none s _)
      · exact iff_of_false (by decide) (fun h => h.2.1 rfl)
    · have he : scan_email env s email run_id =
          { email := email,
            classification := { classify email with matched_patterns :=
              (patternMatch s.catalog email (extract_assets env s email run_id)).2.2 },
            extracted_assets := extract_assets env s email run_id,
            matched_partner :=
              (patternMatch s.catalog email (extract_assets env s email run_id)).1,
            pattern_match_confidence :=
              (patternMatch s.catalog email (extract_assets env s email run_id)).2.1,
            route_action := routeFor s (classify email)
              (patternMatch s.catalog email (extract_assets env s email run_id)).1
              (patternMatch s.catalog email (extract_assets env s email run_id)).2.1 } := by
        unfold scan_email; rw [if_neg hb]
        show (if (classify email).classification = Classification.NOT_DATA
              then _ else _) = _
        rw [if_neg hc]
      have h1 : (scan_email env s email run_id).route_action =
          routeFor s (classify email)
            (patternMatch s.catalog email (extract_assets env s email run_id)).1
            (patternMatch s.catalog email (extract_assets env s email run_id)).2.1 := by
        rw [he]
      have h2 : (scan_email env s email run_id).classification.classification =
          (classify email).classification := by rw [he]
      have h3 : (scan_email env s email run_id).matched_partner =
          (patternMatch s.catalog email (extract_assets env s email run_id)).1 := by
        rw [he]
      have h4 : (scan_email env s email run_id).pattern_match_confidence =
          (patternMatch s.catalog email (extract_assets env s email run_id)).2.1 := by
        rw [he]
      rw [h1, h2, h3, h4]
      obtain ⟨hA, hR⟩ := routeFor_spec s (classify email)
        (patternMatch s.catalog email (extract_assets env s email run_id)).1
        (patternMatch s.catalog email (extract_assets env s email run_id)).2.1 hc
      have hskip : routeFor s (classify email)
          (patternMatch s.catalog email (extract_assets env s email run_id)).1
          (patternMatch s.catalog email (extract_assets env s email run_id)).2.1 ≠
          "skip" := by
        by_cases hcond : routeAutoCond s
            (patternMatch s.catalog email (extract_assets env s email run_id)).1
            (patternMatch s.catalog email (extract_assets env s email run_id)).2.1
        · rw [hA.mpr hcond]; decide
        · rw [hR.mpr hcond]; decide
      refine ⟨iff_of_false hskip (by rintro (h | h); exacts [hb h, hc h]), hA, ?_⟩
      rw [hR]
      constructor
      · intro hn; exact ⟨hb, hc, hn⟩
      · rintro ⟨-, -, hn⟩; exact hn

/-! ## Claim C5 -/

lemma matchAux_cons (email : EmailMessage) (assets : List ExtractedAsset)
    (x : CompiledEntry) (xs : List CompiledEntry)
    (st : Option String × ℚ × List String) :
    matchAux email assets (x :: xs) st =
      matchAux email assets xs
        (if st.2.1 < (matchEntry x email assets).1
         then (some x.pat.partner_name, (matchEntry x email assets).1,
               (matchEntry x email assets).2)
         else st) := rfl

/-- Entries that do not strictly beat the running best leave it alone. -/
lemma matchAux_noImprove (email : EmailMessage) (assets : List ExtractedAsset)
    (l : List CompiledEntry) (st : Option String × ℚ × List String)
    (h : ∀ ent ∈ l, (matchEntry ent email assets).1 ≤ st.2.1) :
    matchAux email assets l st = st := by
  induction l with
  | nil => rfl
  | cons x xs ih =>
    rw [matchAux_cons, if_neg (not_lt.mpr (h x (List.mem_cons_self x xs)))]
    exact ih (fun ent hm => h ent (List.mem_cons_of_mem x hm))

/-- The first entry whose score strictly exceeds the running best and is
never strictly beaten afterwards is the one the fold returns. -/
lemma matchAux_firstMax (email : EmailMessage) (assets : List ExtractedAsset)
    (l₁ : List CompiledEntry) (x : CompiledEntry) (l₂ : List CompiledEntry) :
    ∀ (st : Option String × ℚ × List String),
    st.2.1 < (matchEntry x email assets).1 →
    (∀ ent ∈ l₁, (matchEntry ent email assets).1 < (matchEntry x email assets).1) →
    (∀ ent ∈ l₂, (matchEntry ent email assets).1 ≤ (matchEntry x email assets).1) →
    matchAux email assets (l₁ ++ x :: l₂) st =
      (some x.pat.partner_name, (matchEntry x email assets).1,
       (matchEntry x email assets).2) := by
  induction l₁ with
  | nil =>
    intro st hst h1 h2
    rw [List.nil_append, matchAux_cons, if_pos hst]
    exact matchAux_noImprove email assets l₂ _ (fun ent hm => h2 ent hm)
  | cons y l₁ ih =>
    intro st hst h1 h2
    rw [List.cons_append, matchAux_cons]
    refine ih _ ?_ (fun ent hm => h1 ent (List.mem_cons_of_mem y hm)) h2
    split
    · exact h1 y (List.mem_cons_self y l₁)
    · exact hst

/-- C5: `PatternMatcher.match` is deterministic; it returns
`(none, 0.0, [])` when no entry scores above zero; and the entry it
returns is the first one attaining the best score — in particular, on a
tie the entry appearing earlier in catalog load order wins. -/
theorem claim_C5 (catalog : List CompiledEntry) (email : EmailMessage)
    (assets : List ExtractedAsset) :
    (∀ email2 assets2, email = email2 → assets = assets2 →
      patternMatch catalog email assets = patternMatch catalog email2 assets2) ∧
    ((∀ ent ∈ catalog, (matchEntry ent email assets).1 ≤ 0) →
      patternMatch catalog email assets = (none, 0, [])) ∧
    (∀ l₁ x l₂, catalog = l₁ ++ x :: l₂ →
      0 < (matchEntry x email assets).1 →
      (∀ ent ∈ l₁, (matchEntry ent email assets).1 < (matchEntry x email assets).1) →
      (∀ ent ∈ l₂, (matchEntry ent email assets).1 ≤ (matchEntry x email assets).1) →
      patternMatch catalog email assets =
        (some x.pat.partner_name, (matchEntry x email assets).1,
         (matchEntry x email assets).2)) := by
  refine ⟨fun e2 a2 he ha => by rw [← he, ← ha], ?_, ?_⟩
  · intro h
    exact matchAux_noImprove email assets catalog (none, 0, []) h
  · intro l₁ x l₂ hcat h0 hlt hle
    rw [hcat]
    exact matchAux_firstMax email assets l₁ x l₂ (none, 0, []) h0 hlt hle

/-- Two catalog entries for the C5 witness whose sender patterns both
match the witness message, giving the tied score 0.30 for each. -/
def entryA5 : CompiledEntry :=
  { pat := { partner_name := "Alpha", sender_patterns := ["*@x"] },
    senderRes := [RElit "@x"], subjectRes := [] }

def entryB5 : CompiledEntry :=
  { pat := { partner_name := "Beta", sender_patterns := ["*@x"] },
    senderRes := [RElit "@x"], subjectRes := [] }

def emailC5 : EmailMessage :=
  { message_id := "m5", from_address := "u@x", subject := "" }

/-- Witness for C5: `Alpha` and `Beta` tie at 0.30 and the earlier entry
`Alpha` is returned with its score and factors. -/
theorem claim_C5_witness :
    (matchEntry entryB5 emailC5 []).1 = (matchEntry entryA5 emailC5 []).1 ∧
    patternMatch [entryA5, entryB5] emailC5 [] =
      (some "Alpha", (matchEntry entryA5 emailC5 []).1,
       (matchEntry entryA5 emailC5 []).2) := by
  refine ⟨by with_unfolding_all decide, ?_⟩
  exact (claim_C5 [entryA5, entryB5] emailC5 []).2.2 [] entryA5 [entryB5] rfl
    (by with_unfolding_all decide)
    (by intro ent hm; exact absurd hm (List.not_mem_nil ent))
    (by intro ent hm
        rw [List.mem_singleton] at hm
        subst hm
        with_unfolding_all decide)

/-! ## Claim C10 -/

lemma senderScore_bounds (ent : CompiledEntry) (email : EmailMessage) :
    0 ≤ (senderScore ent email).1 ∧ (senderScore ent email).1 ≤ 3/10 := by
  unfold senderScore; split <;> norm_num

lemma subjectScore_bounds (ent : CompiledEntry) (email : EmailMessage) :
    0 ≤ (subjectScore ent email).1 ∧ (subjectScore ent email).1 ≤ 1/5 := by
  unfold subjectScore; split <;> norm_num

lemma formatScore_bounds (ent : CompiledEntry) (assets : List ExtractedAsset) :
    0 ≤ (formatScore ent assets).1 ∧ (formatScore ent assets).1 ≤ 1/5 := by
  unfold formatScore
  split
  · dsimp only []
    split <;> norm_num
  · norm_num

lemma columnScoreAux_bounds (cols : List String) (assets : List ExtractedAsset) :
    0 ≤ (columnScoreAux cols assets).1 ∧ (columnScoreAux cols assets).1 ≤ 3/10 := by
  unfold columnScoreAux
  by_cases hemp : cols.isEmpty
  · rw [if_pos hemp]; norm_num
  · rw [if_neg hemp]
    cases hfind : assets.find? (fun a =>
        match a.columns with | some cl => !cl.isEmpty | none => false) with
    | none => exact ⟨le_refl 0, by norm_num⟩
    | some a =>
      show 0 ≤ 3/10 * ((cols.countP (fun c =>
              (((a.columns.getD []).map String.toLower).contains c.toLower))) : ℚ) /
            (cols.length : ℚ) ∧
          3/10 * ((cols.countP (fun c =>
              (((a.columns.getD []).map String.toLower).contains c.toLower))) : ℚ) /
            (cols.length : ℚ) ≤ 3/10
      have hn : (0 : ℚ) < (cols.length : ℚ) := by
        have hne : cols.length ≠ 0 := by
          intro h; exact hemp (List.isEmpty_iff_length_eq_zero.mpr h)
        exact_mod_cast Nat.pos_of_ne_zero hne
      have hm : ((cols.countP (fun c =>
          (((a.columns.getD []).map String.toLower).contains c.toLower))) : ℚ) ≤
          (cols.length : ℚ) := by
        exact_mod_cast List.countP_le_length _
      constructor
      · positivity
      · rw [mul_div_assoc]
        calc 3/10 * (((cols.countP (fun c =>
              (((a.columns.getD []).map String.toLower).contains c.toLower))) : ℚ) /
              (cols.length : ℚ))
            ≤ 3/10 * 1 := by
              apply mul_le_mul_of_nonneg_left _ (by norm_num)
              exact (div_le_one hn).mpr hm
          _ = 3/10 := by norm_num

lemma columnScore_bounds (ent : CompiledEntry) (assets : List ExtractedAsset) :
    0 ≤ (columnScore ent assets).1 ∧ (columnScore ent assets).1 ≤ 3/10 := by
  unfold columnScore
  cases hcols : ent.pat.expected_columns with
  | none => exact ⟨le_refl 0, by norm_num⟩
  | some cols => exact columnScoreAux_bounds cols assets

/-- Each of the four per-entry contributions is added at most once, so an
entry's score lies in [0, 1] with no clamp needed. -/
lemma matchEntry_bounds (ent : CompiledEntry) (email : EmailMessage)
    (assets : List ExtractedAsset) :
    0 ≤ (matchEntry ent email assets).1 ∧ (matchEntry ent email assets).1 ≤ 1 := by
  obtain ⟨a0, a1⟩ := senderScore_bounds ent email
  obtain ⟨b0, b1⟩ := subjectScore_bounds ent email
  obtain ⟨c0, c1⟩ := formatScore_bounds ent assets
  obtain ⟨d0, d1⟩ := columnScore_bounds ent assets
  unfold matchEntry
  constructor <;> simp only [] <;> linarith

/-- The fold keeps the confidence within the bounds of the entry scores. -/
lemma matchAux_conf_bounds (email : EmailMessage) (assets : List ExtractedAsset)
    (l : List CompiledEntry) (st : Option String × ℚ × List String)
    (h0 : 0 ≤ st.2.1) (h1 : st.2.1 ≤ 1) :
    0 ≤ (matchAux email assets l st).2.1 ∧ (matchAux email assets l st).2.1 ≤ 1 := by
  induction l generalizing st with
  | nil => exact ⟨h0, h1⟩
  | cons x xs ih =>
    rw [matchAux_cons]
    split
    · exact ih _ (matchEntry_bounds x email assets).1 (matchEntry_bounds x email assets).2
    · exact ih _ h0 h1

/-- C10: every per-entry score of `PatternMatcher.match` lies in [0,1]
(each of the four contributions — sender +0.30, subject +0.20, format
+0.20, column overlap at most +0.30 — is added at most once per entry),
so the returned confidence lies in [0,1] with no clamp in the code. -/
theorem claim_C10 (catalog : List CompiledEntry) (email : EmailMessage)
    (assets : List ExtractedAsset) :
    (∀ ent ∈ catalog,
      0 ≤ (matchEntry ent email assets).1 ∧ (matchEntry ent email assets).1 ≤ 1) ∧
    0 ≤ (patternMatch catalog email assets).2.1 ∧
    (patternMatch catalog email assets).2.1 ≤ 1 := by
  refine ⟨fun ent _ => matchEntry_bounds ent email assets, ?_⟩
  exact matchAux_conf_bounds email assets catalog (none, 0, []) (le_refl 0) (by norm_num)

/-! ## Claim C6 -/

lemma filterMap_ite_eq_filter_map {α β : Type} (l : List α) (p : α → Bool)
    (g : α → β) :
    l.filterMap (fun a => if p a then some (g a) else none) =
      (l.filter p).map g := by
  induction l with
  | nil => rfl
  | cons x xs ih =>
    by_cases h : p x <;>
      simp [List.filterMap_cons, List.filter_cons, h, ih]

lemma filterMap_sublist_map {α β : Type} (l : List α) (f : α → Option β)
    (g : α → β) (h : ∀ a b, f a = some b → b = g a) :
    (l.filterMap f).Sublist (l.map g) := by
  induction l with
  | nil => simp
  | cons x xs ih =>
    cases hx : f x with
    | none =>
      rw [List.filterMap_cons, hx, List.map_cons]
      exact ih.cons _
    | some b =>
      rw [List.filterMap_cons, hx, h x b hx, List.map_cons]
      exact ih.cons₂ _

lemma countP_key_le_one {α : Type} [BEq α] [LawfulBEq α] (l : List α)
    (hl : l.Nodup) (ty : α) : l.countP (fun o => o == ty) ≤ 1 := by
  induction l with
  | nil => simp
  | cons x xs ih =>
    rw [List.countP_cons]
    by_cases hx : x = ty
    · subst hx
      have hz : xs.countP (fun o => o == x) = 0 := by
        rw [List.countP_eq_zero]
        intro a ha
        simp only [beq_iff_eq]
        exact fun he => (List.nodup_cons.mp hl).1 (he ▸ ha)
      simp [hz]
    · have hb : (x == ty) = false := by
        simp [hx]
      rw [hb]
      simpa using ih (List.nodup_cons.mp hl).2

lemma attachmentAsset_type (env : ScanEnv) (mid path : String)
    (att : EmailAttachment) :
    (attachmentAsset env mid path att).asset_type = "attachment" := by
  unfold attachmentAsset
  cases env.saveAttachment mid att path <;> rfl

lemma attachmentAsset_filename (env : ScanEnv) (mid path : String)
    (att : EmailAttachment) :
    (attachmentAsset env mid path att).filename = some att.filename := by
  unfold attachmentAsset
  cases env.saveAttachment mid att path <;> rfl

/-- C6: `extract_assets` returns all attachment assets before all link
assets; the attachment assets follow the message's original attachment
order (witnessed by the filename projection over the recognized
attachments); and at most one link asset is produced per recognized link
type, in the fixed scan order of the link-pattern table. -/
theorem claim_C6 (env : ScanEnv) (s : EmailScanner) (email : EmailMessage)
    (run_id : String) :
    ∃ la lb, extract_assets env s email run_id = la ++ lb ∧
      (∀ x ∈ la, x.asset_type = "attachment") ∧
      la.map (fun x => x.filename) =
        (email.attachments.filter isDataAttachment).map
          (fun att => some att.filename) ∧
      (∀ x ∈ lb, x.asset_type = "link") ∧
      (lb.map (fun x => x.link_type)).Sublist
        (LINK_PATTERNS.map (fun pr => some pr.1)) ∧
      (∀ ty : String,
        (lb.filter (fun x => x.link_type == some ty)).length ≤ 1) := by
  refine ⟨_, _, rfl, ?_, ?_, ?_, ?_, ?_⟩
  · -- every attachment-part element is an attachment asset
    intro x hx
    rw [List.mem_filterMap] at hx
    obtain ⟨att, -, hatt⟩ := hx
    by_cases hrec : isDataAttachment att
    · rw [if_pos hrec] at hatt
      cases hatt
      exact attachmentAsset_type env email.message_id _ att
    · rw [if_neg hrec] at hatt
      exact absurd hatt (by simp)
  · -- the filename projection preserves the original attachment order
    rw [filterMap_ite_eq_filter_map email.attachments isDataAttachment
      (attachmentAsset env email.message_id
        (s.extraction_dir ++ "/" ++ run_id))]
    rw [List.map_map]
    apply List.map_congr_left
    intro att _
    exact attachmentAsset_filename env email.message_id _ att
  · -- every link-part element is a link asset
    intro x hx
    rw [List.mem_filterMap] at hx
    obtain ⟨pr, -, hpr⟩ := hx
    rw [Option.map_eq_some'] at hpr
    obtain ⟨ij, -, rfl⟩ := hpr
    rfl
  · -- link types are a subsequence of the table's key order
    rw [List.map_filterMap]
    apply filterMap_sublist_map
    intro pr o hpr
    rw [Option.map_map, Option.map_eq_some'] at hpr
    obtain ⟨ij, -, h2⟩ := hpr
    exact h2.symm
  · -- at most one link asset per link type
    intro ty
    rw [← List.countP_eq_length_filter]
    have hmap : (LINK_PATTERNS.filterMap fun pr =>
        (reSearchSpan pr.2 (pyBody email)).map fun ij =>
          ({ asset_type := "link", source_email_id := email.message_id,
             url := some (strSlice (pyBody email) ij.1 ij.2),
             link_type := some pr.1 } : ExtractedAsset)).countP
          (fun x => x.link_type == some ty) =
        ((LINK_PATTERNS.filterMap fun pr =>
          (reSearchSpan pr.2 (pyBody email)).map fun ij =>
            ({ asset_type := "link", source_email_id := email.message_id,
               url := some (strSlice (pyBody email) ij.1 ij.2),
               link_type := some pr.1 } : ExtractedAsset)).map
            (fun x => x.link_type)).countP (fun o => o == some ty) := by
      rw [List.countP_map]
      rfl
    rw [hmap]
    have hsub : ((LINK_PATTERNS.filterMap fun pr =>
        (reSearchSpan pr.2 (pyBody email)).map fun ij =>
          ({ asset_type := "link", source_email_id := email.message_id,
             url := some (strSlice (pyBody email) ij.1 ij.2),
             link_type := some pr.1 } : ExtractedAsset)).map
          (fun x => x.link_type)).Sublist
        (LINK_PATTERNS.map (fun pr => some pr.1)) := by
      rw [List.map_filterMap]
      apply filterMap_sublist_map
      intro pr o hpr
      rw [Option.map_map, Option.map_eq_some'] at hpr
      obtain ⟨ij, -, h2⟩ := hpr
      exact h2.symm
    calc ((LINK_PATTERNS.filterMap fun pr =>
            (reSearchSpan pr.2 (pyBody email)).map fun ij =>
              ({ asset_type := "link", source_email_id := email.message_id,
                 url := some (strSlice (pyBody email) ij.1 ij.2),
                 link_type := some pr.1 } : ExtractedAsset)).map
              (fun x => x.link_type)).countP (fun o => o == some ty)
        ≤ (LINK_PATTERNS.map (fun pr => some pr.1)).countP
            (fun o => o == some ty) := hsub.countP_le _
      _ ≤ 1 := countP_key_le_one _ (by decide) (some ty)

/-! ## Claim C7 -/

/-- An environment in which the attachment download succeeds but the
header probe raises. -/
def envProbeFail : ScanEnv :=
  { saveAttachment := fun _ _ _ => .ok "/extracts/run/data.csv",
    fileExists := fun _ => true,
    readFirstRow := fun _ => .error "probe failed",
    pipelineFault := fun _ => none }

def attC7 : EmailAttachment :=
  { filename := "data.csv", mime_type := "text/csv", size := 10,
    attachment_id := "a7" }

def emailC7 : EmailMessage :=
  { message_id := "m7", from_address := "p@q", subject := "S",
    attachments := [attC7] }

def scannerC7 : EmailScanner := mkScanner [] "/extracts" [] []

set_option synthInstance.maxSize 2000 in
/-- Counterexample to C7: when the header probe fails on a recognized
data attachment, the returned asset keeps filename/mime/size but its
`error` field is `None` — the probe failure is swallowed by
`_extract_columns`, not surfaced in `error` as the claim states. -/
theorem claim_C7_counterexample :
    envProbeFail.readFirstRow "/extracts/run/data.csv" = .error "probe failed" ∧
    (extract_assets envProbeFail scannerC7 emailC7 "run").map
        (fun a => (a.filename, a.mime_type, a.size_bytes, a.columns, a.error)) =
      [(some "data.csv", some "text/csv", some 10, none, none)] := by
  refine ⟨rfl, ?_⟩
  with_unfolding_all decide

/-- C7 as amended: for every recognized data attachment, an asset is
always produced; when the download succeeds but the header probe fails,
the asset keeps filename, mime type and size, carries no column list, and
its error field is left empty (the probe failure is swallowed); when the
download itself fails, the asset carries the error (and the filename)
instead of an exception aborting the message. -/
theorem claim_C7_amended (env : ScanEnv) (s : EmailScanner)
    (email : EmailMessage) (run_id : String) (att : EmailAttachment)
    (hmem : att ∈ email.attachments)
    (hrec : isDataAttachment att = true) :
    (attachmentAsset env email.message_id (s.extraction_dir ++ "/" ++ run_id) att ∈
      extract_assets env s email run_id) ∧
    (∀ fp, env.saveAttachment email.message_id att
        (s.extraction_dir ++ "/" ++ run_id) = .ok fp →
      ∀ msg, env.readFirstRow fp = .error msg →
      attachmentAsset env email.message_id (s.extraction_dir ++ "/" ++ run_id) att =
        { asset_type := "attachment", source_email_id := email.message_id,
          filename := some att.filename, file_path := some fp,
          mime_type := some att.mime_type, size_bytes := some att.size,
          columns := none, error := none }) ∧
    (∀ msg, env.saveAttachment email.message_id att
        (s.extraction_dir ++ "/" ++ run_id) = .error msg →
      attachmentAsset env email.message_id (s.extraction_dir ++ "/" ++ run_id) att =
        { asset_type := "attachment", source_email_id := email.message_id,
          filename := some att.filename, error := some msg }) := by
  refine ⟨?_, ?_, ?_⟩
  · unfold extract_assets
    apply List.mem_append_left
    rw [List.mem_filterMap]
    refine ⟨att, hmem, ?_⟩
    rw [if_pos hrec]
  · intro fp hok msg herr
    have hcol : (if env.fileExists fp then extractColumns env fp else none) =
        none := by
      have h2 : extractColumns env fp = none := by
        unfold extractColumns; rw [herr]
      rw [h2, ite_self]
    have hstep : attachmentAsset env email.message_id
        (s.extraction_dir ++ "/" ++ run_id) att =
        { asset_type := "attachment", source_email_id := email.message_id,
          filename := some att.filename, file_path := some fp,
          mime_type := some att.mime_type, size_bytes := some att.size,
          columns := if env.fileExists fp then extractColumns env fp
                     else none } := by
      unfold attachmentAsset; rw [hok]
    rw [hstep, hcol]
  · intro msg herr
    unfold attachmentAsset; rw [herr]

/-- Witness for C7's amended statement at a concrete environment whose
probe raises: the asset is in the extraction output, with fields kept and
an empty error. -/
theorem claim_C7_witness :
    isDataAttachment attC7 = true ∧
    (attachmentAsset envProbeFail emailC7.message_id
        (scannerC7.extraction_dir ++ "/" ++ "run") attC7 ∈
      extract_assets envProbeFail scannerC7 emailC7 "run") ∧
    attachmentAsset envProbeFail emailC7.message_id
        (scannerC7.extraction_dir ++ "/" ++ "run") attC7 =
      { asset_type := "attachment", source_email_id := "m7",
        filename := some "data.csv", file_path := some "/extracts/run/data.csv",
        mime_type := some "text/csv", size_bytes := some 10,
        columns := none, error := none } :=
  ⟨by with_unfolding_all decide,
   (claim_C7_amended envProbeFail scannerC7 emailC7 "run" attC7
      (by with_unfolding_all decide) (by with_unfolding_all decide)).1,
   (claim_C7_amended envProbeFail scannerC7 emailC7 "run" attC7
      (by with_unfolding_all decide) (by with_unfolding_all decide)).2.1
     "/extracts/run/data.csv" rfl "probe failed" rfl⟩

/-! ## Claim C8 -/

lemma routeDefault_mem (c : ClassificationResult) :
    routeDefault c = "skip" ∨ routeDefault c = "review" := by
  unfold routeDefault; split
  · exact Or.inl rfl
  · exact Or.inr rfl

lemma routeLookup_mem (s : EmailScanner) (name : String) (conf : ℚ) :
    routeLookup s name conf = "auto_process" ∨ routeLookup s name conf = "review" := by
  unfold routeLookup
  cases s.patterns.find? (fun p => p.partner_name == name) with
  | none => exact Or.inr rfl
  | some p =>
    by_cases h : (p.auto_process && decide (p.confidence_threshold ≤ conf)) = true
    · refine Or.inl ?_
      show (if (p.auto_process && decide (p.confidence_threshold ≤ conf)) = true
            then "auto_process" else "review") = "auto_process"
      rw [if_pos h]
    · refine Or.inr ?_
      show (if (p.auto_process && decide (p.confidence_threshold ≤ conf)) = true
            then "auto_process" else "review") = "review"
      rw [if_neg h]

lemma routeFor_mem (s : EmailScanner) (c : ClassificationResult)
    (partner : Option String) (conf : ℚ) :
    routeFor s c partner conf = "auto_process" ∨
    routeFor s c partner conf = "review" ∨
    routeFor s c partner conf = "skip" := by
  cases partner with
  | none =>
    have hstep : routeFor s c none conf = routeDefault c := rfl
    rw [hstep]
    rcases routeDefault_mem c with h | h
    · exact Or.inr (Or.inr h)
    · exact Or.inr (Or.inl h)
  | some name =>
    have hstep : routeFor s c (some name) conf =
        if name ≠ "" then routeLookup s name conf else routeDefault c := rfl
    rw [hstep]
    by_cases hne : name ≠ ""
    · rw [if_pos hne]
      rcases routeLookup_mem s name conf with h | h
      · exact Or.inl h
      · exact Or.inr (Or.inl h)
    · rw [if_neg hne]
      rcases routeDefault_mem c with h | h
      · exact Or.inr (Or.inr h)
      · exact Or.inr (Or.inl h)

/-- `scan_email` on a blocklisted sender. -/
lemma scan_email_blocked (env : ScanEnv) (s : EmailScanner)
    (email : EmailMessage) (run_id : String)
    (hb : is_blocklisted s email = true) :
    scan_email env s email run_id =
      { email := email,
        classification := { classification := .NOT_DATA, score := 0,
                            factors := ["blocklisted_sender"] },
        extracted_assets := [], route_action := "skip" } := by
  unfold scan_email; rw [if_pos hb]

/-- `scan_email` when the classification is not-data. -/
lemma scan_email_notdata (env : ScanEnv) (s : EmailScanner)
    (email : EmailMessage) (run_id : String)
    (hb : ¬ is_blocklisted s email = true)
    (hc : (classify email).classification = Classification.NOT_DATA) :
    scan_email env s email run_id =
      { email := email, classification := classify email,
        extracted_assets := [], route_action := "skip" } := by
  unfold scan_email; rw [if_neg hb]
  show (if (classify email).classification = Classification.NOT_DATA
        then _ else _) = _
  rw [if_pos hc]

/-- `scan_email` in the main (extract, match, route) branch. -/
lemma scan_email_main (env : ScanEnv) (s : EmailScanner)
    (email : EmailMessage) (run_id : String)
    (hb : ¬ is_blocklisted s email = true)
    (hc : ¬ (classify email).classification = Classification.NOT_DATA) :
    scan_email env s email run_id =
      { email := email,
        classification := { classify email with matched_patterns :=
          (patternMatch s.catalog email (extract_assets env s email run_id)).2.2 },
        extracted_assets := extract_assets env s email run_id,
        matched_partner :=
          (patternMatch s.catalog email (extract_assets env s email run_id)).1,
        pattern_match_confidence :=
          (patternMatch s.catalog email (extract_assets env s email run_id)).2.1,
        route_action := routeFor s (classify email)
          (patternMatch s.catalog email (extract_assets env s email run_id)).1
          (patternMatch s.catalog email (extract_assets env s email run_id)).2.1 } := by
  unfold scan_email; rw [if_neg hb]
  show (if (classify email).classification = Classification.NOT_DATA
        then _ else _) = _
  rw [if_neg hc]

/-- Every scanned message's route action is one of the three verbs. -/
lemma scan_email_route_mem (env : ScanEnv) (s : EmailScanner)
    (email : EmailMessage) (run_id : String) :
    (scan_email env s email run_id).route_action = "auto_process" ∨
    (scan_email env s email run_id).route_action = "review" ∨
    (scan_email env s email run_id).route_action = "skip" := by
  by_cases hb : is_blocklisted s email = true
  · rw [scan_email_blocked env s email run_id hb]
    exact Or.inr (Or.inr rfl)
  · by_cases hc : (classify email).classification = Classification.NOT_DATA
    · rw [scan_email_notdata env s email run_id hb hc]
      exact Or.inr (Or.inr rfl)
    · rw [scan_email_main env s email run_id hb hc]
      exact routeFor_mem s (classify email) _ _

/-- One loop iteration of `scan`, written through the per-message
projections. -/
lemma scanFold_fields (env : ScanEnv) (s : EmailScanner) (run_id : String)
    (r0 : RunResults) (e : EmailMessage) :
    scanFold env s run_id r0 e =
      { run_id := r0.run_id,
        emails_scanned := r0.emails_scanned + 1,
        emails_classified_as_data := r0.emails_classified_as_data +
          (if dataPred env s run_id e then 1 else 0),
        auto_processed := r0.auto_processed ++ (autoProj env s run_id e).toList,
        review_queue := r0.review_queue ++ (reviewProj env s run_id e).toList,
        errors := r0.errors ++ (errProj env s run_id e).toList } := by
  unfold scanFold dataPred autoProj reviewProj errProj
  cases hstep : scanStep env s run_id e with
  | error msg => simp [hstep]
  | ok sr =>
    have hsr : sr = scan_email env s e run_id := by
      unfold scanStep at hstep
      cases hf : env.pipelineFault e with
      | some m => rw [hf] at hstep; exact absurd hstep (by simp)
      | none =>
        rw [hf] at hstep
        exact (Except.ok.inj hstep).symm
    rcases scan_email_route_mem env s e run_id with hr | hr | hr <;>
      rw [← hsr] at hr <;>
      by_cases hd : sr.classification.classification = Classification.NOT_DATA <;>
        simp [hstep, hr, hd]

lemma toList_append_filterMap {α β : Type} (f : α → Option β) (x : α)
    (l : List α) :
    (f x).toList ++ l.filterMap f = (x :: l).filterMap f := by
  cases hx : f x <;> simp [List.filterMap_cons, hx]

lemma ite_add_countP {α : Type} (p : α → Bool) (x : α) (l : List α) :
    (if p x then 1 else 0) + l.countP p = (x :: l).countP p := by
  rw [List.countP_cons]
  by_cases h : p x <;> simp [h] <;> omega

/-- The run accumulator after a fold is the initial accumulator plus each
message's independent contribution. -/
lemma scan_foldl_spec (env : ScanEnv) (s : EmailScanner) (run_id : String)
    (emails : List EmailMessage) :
    ∀ r0 : RunResults,
    emails.foldl (scanFold env s run_id) r0 =
      { run_id := r0.run_id,
        emails_scanned := r0.emails_scanned + emails.length,
        emails_classified_as_data := r0.emails_classified_as_data +
          emails.countP (dataPred env s run_id),
        auto_processed := r0.auto_processed ++
          emails.filterMap (autoProj env s run_id),
        review_queue := r0.review_queue ++
          emails.filterMap (reviewProj env s run_id),
        errors := r0.errors ++ emails.filterMap (errProj env s run_id) } := by
  induction emails with
  | nil => intro r0; simp
  | cons e es ih =>
    intro r0
    rw [List.foldl_cons, ih, scanFold_fields]
    dsimp only []
    rw [RunResults.mk.injEq]
    refine ⟨rfl, by rw [List.length_cons]; omega, ?_, ?_, ?_, ?_⟩
    · rw [Nat.add_assoc, ite_add_countP]
    · rw [List.append_assoc, toList_append_filterMap]
    · rw [List.append_assoc, toList_append_filterMap]
    · rw [List.append_assoc, toList_append_filterMap]

lemma length_filterMap_eq_countP {α β : Type} (f : α → Option β) (l : List α) :
    (l.filterMap f).length = l.countP (fun a => (f a).isSome) := by
  induction l with
  | nil => rfl
  | cons x xs ih =>
    cases hx : f x <;>
      simp [List.filterMap_cons, hx, List.countP_cons, ih]

/-- Each message resolves to exactly one of the four outcomes. -/
lemma outcome_partition (env : ScanEnv) (s : EmailScanner) (run_id : String)
    (e : EmailMessage) :
    (if (autoProj env s run_id e).isSome then 1 else 0) +
    (if (reviewProj env s run_id e).isSome then 1 else 0) +
    (if skipPred env s run_id e then 1 else 0) +
    (if (errProj env s run_id e).isSome then 1 else 0) = 1 := by
  unfold autoProj reviewProj skipPred errProj
  cases hstep : scanStep env s run_id e with
  | error msg => simp
  | ok sr =>
    have hsr : sr = scan_email env s e run_id := by
      unfold scanStep at hstep
      cases hf : env.pipelineFault e with
      | some m => rw [hf] at hstep; exact absurd hstep (by simp)
      | none => rw [hf] at hstep; exact (Except.ok.inj hstep).symm
    rcases scan_email_route_mem env s e run_id with hr | hr | hr <;>
      rw [← hsr] at hr <;> simp [hr]

/-- Pointwise partition summed over the message list. -/
lemma countP_partition (env : ScanEnv) (s : EmailScanner) (run_id : String)
    (emails : List EmailMessage) :
    emails.length =
      emails.countP (fun e => (autoProj env s run_id e).isSome) +
      emails.countP (fun e => (reviewProj env s run_id e).isSome) +
      emails.countP (skipPred env s run_id) +
      emails.countP (fun e => (errProj env s run_id e).isSome) := by
  induction emails with
  | nil => rfl
  | cons e es ih =>
    have hp := outcome_partition env s run_id e
    rw [List.length_cons, List.countP_cons, List.countP_cons, List.countP_cons,
      List.countP_cons]
    omega

/-- C8: the run summary scans every message; its error list is exactly
the per-message failures keyed by message id; auto-process payloads,
review items and errors are independent per-message contributions (so an
earlier message's failure never affects a later message); and every
scanned message resolves to exactly one of auto_processed, review_queue,
skip, or error. -/
theorem claim_C8 (env : ScanEnv) (s : EmailScanner) (run_id : String)
    (emails : List EmailMessage) :
    (scan env s run_id emails).emails_scanned = emails.length ∧
    (scan env s run_id emails).errors = emails.filterMap (errProj env s run_id) ∧
    (scan env s run_id emails).auto_processed =
      emails.filterMap (autoProj env s run_id) ∧
    (scan env s run_id emails).review_queue =
      emails.filterMap (reviewProj env s run_id) ∧
    emails.length =
      (emails.filterMap (autoProj env s run_id)).length +
      (emails.filterMap (reviewProj env s run_id)).length +
      (emails.filter (skipPred env s run_id)).length +
      (emails.filterMap (errProj env s run_id)).length := by
  unfold scan
  rw [scan_foldl_spec]
  refine ⟨by simp, by simp, by simp, by simp, ?_⟩
  rw [length_filterMap_eq_countP, length_filterMap_eq_countP,
    length_filterMap_eq_countP, ← List.countP_eq_length_filter]
  exact countP_partition env s run_id emails

/-! ## Claim C9 -/

/-- The domain of an address: the part after the last `@` (empty when the
address has no `@`). -/
def addrDomain (addr : String) : String :=
  let parts := addr.splitOn "@"
  if 2 ≤ parts.length then parts.getLastD "" else ""

/-- The claim's blocklist condition with its domain clause read as the
spec words it: the sender address's *domain* is a domain-suffix match
(equal, or a subdomain) of a configured blocked domain.  The sender-entry
clause is as in the code.  This definition follows the claim's words, for
comparison against `is_blocklisted`. -/
def claimBlocklistedSpec (senders domains : List String) (addr : String) : Bool :=
  let a := addr.toLower
  (senders.map String.toLower).any (fun b =>
    if b.startsWith "*@" then a.endsWith (b.drop 1) else strContains a b) ||
  (domains.map String.toLower).any (fun d =>
    addrDomain a == d || (addrDomain a).endsWith ("." ++ d))

/-- Counterexample to C9: with blocked domain `evil.com`, the address
`x@evil.com.attacker.org` is blocklisted by the code (its lowercased
address contains the substring `@evil.com`) although its domain
`evil.com.attacker.org` is not a domain-suffix match of `evil.com` — so
"blocked exactly when … the domain is a domain-suffix match" is false. -/
theorem claim_C9_counterexample :
    is_blocklisted (mkScanner [] "/extracts" [] ["evil.com"])
      { message_id := "m9", from_address := "x@evil.com.attacker.org",
        subject := "S" } = true ∧
    claimBlocklistedSpec [] ["evil.com"] "x@evil.com.attacker.org" = false := by
  with_unfolding_all decide

/-- C9 as amended: the blocklist check marks a message blocked exactly
when the lowercased sender address contains a lowercased configured
sender entry as a substring (entries starting `*@` instead matching by
address suffix on the part after the `*`), or contains `"@" + domain` as
a substring for a lowercased configured blocked domain; and a blocked
message gets classification forced to not-data, route skip, and no
extraction is performed. -/
theorem claim_C9_amended (catalog : List CompiledEntry) (dir : String)
    (senders domains : List String) (email : EmailMessage) :
    (is_blocklisted (mkScanner catalog dir senders domains) email = true ↔
      ((∃ b ∈ senders.map String.toLower,
          (b.startsWith "*@" = true ∧
           email.from_address.toLower.endsWith (b.drop 1) = true) ∨
          (b.startsWith "*@" = false ∧
           strContains email.from_address.toLower b = true)) ∨
       (∃ d ∈ domains.map String.toLower,
          strContains email.from_address.toLower ("@" ++ d) = true))) ∧
    (∀ env run_id,
      is_blocklisted (mkScanner catalog dir senders domains) email = true →
      scan_email env (mkScanner catalog dir senders domains) email run_id =
        { email := email,
          classification := { classification := .NOT_DATA, score := 0,
                              factors := ["blocklisted_sender"] },
          extracted_assets := [], route_action := "skip" }) := by
  constructor
  · unfold is_blocklisted mkScanner
    rw [Bool.or_eq_true, List.any_eq_true, List.any_eq_true]
    apply or_congr
    · apply exists_congr
      intro b
      apply and_congr_right
      intro _
      by_cases hb : b.startsWith "*@"
      · rw [if_pos hb]
        simp [hb]
      · rw [if_neg hb]
        simp [Bool.eq_false_iff.mp (Bool.not_eq_true _ ▸ hb)]
    · apply exists_congr
      intro d
      exact Iff.rfl
  · intro env run_id hb
    exact scan_email_blocked env _ email run_id hb

def em9w : EmailMessage :=
  { message_id := "m9w", from_address := "Billing@vendor.com",
    subject := "Invoice attached" }

/-- Witness for C9's amended statement: `billing` in the sender blocklist
blocks `Billing@vendor.com` (case-insensitive substring), forcing
not-data, route skip and no extraction, irrespective of subject and body. -/
theorem claim_C9_witness :
    is_blocklisted (mkScanner [] "/extracts" ["billing"] []) em9w = true ∧
    scan_email envTriv (mkScanner [] "/extracts" ["billing"] []) em9w "run" =
      { email := em9w,
        classification := { classification := .NOT_DATA, score := 0,
                            factors := ["blocklisted_sender"] },
        extracted_assets := [], route_action := "skip" } :=
  ⟨by with_unfolding_all decide,
   (claim_C9_amended [] "/extracts" ["billing"] [] em9w).2 envTriv "run"
     (by with_unfolding_all decide)⟩
